import Mathlib

/-!
Verification of the Limppano expense-dashboard data-processing layer.

The definitions below are a shallow embedding, in Lean 4, of the
TypeScript data-processing functions of the repository
(`utils/dataProcessor.ts`, `utils/forecastEngine.ts`, `constants.ts`,
`views/MicroView.tsx`).  JavaScript numbers are modelled by `ℚ`;
JavaScript `Map`s (which iterate in insertion order) are modelled by
insertion-ordered association lists; `Array.prototype.sort` with a
numeric comparator is modelled by `List.insertionSort` with the
corresponding total order.  Where JavaScript would produce `NaN`
(division by zero inside the regression helpers) the `ℚ` convention
`q / 0 = 0` applies; every place where that matters is noted next to
the definition.  The theorems at the end of the file state and settle
the specification claims.
-/

namespace Dashboard

/-- Embedding of `CategoryType` from `types.ts`: the string union
`'DC' | 'DL' | 'DA' | 'DF' | 'GGF' | 'DP' | 'ROL' | 'OUTROS'`. -/
inductive CategoryType where
  | DC | DL | DA | DF | GGF | DP | ROL | OUTROS
deriving DecidableEq

/-- The string value carried by a `CategoryType` member (in TypeScript the
category *is* this string; it is used directly as a grouping key). -/
def catKey : CategoryType → String
  | .DC => "DC"
  | .DL => "DL"
  | .DA => "DA"
  | .DF => "DF"
  | .GGF => "GGF"
  | .DP => "DP"
  | .ROL => "ROL"
  | .OUTROS => "OUTROS"

/-- Embedding of `DataType` from `types.ts`: `'REAL' | 'ORCADO'` (actual vs budget). -/
inductive DataType where
  | REAL | ORCADO
deriving DecidableEq

/-- Embedding of `DeviationStatus` from `types.ts`:
`'SAVING' | 'HEALTHY' | 'WARNING' | 'CRITICAL'`. -/
inductive DeviationStatus where
  | SAVING | HEALTHY | WARNING | CRITICAL
deriving DecidableEq

/-- Embedding of `ProcessedExpense` from `types.ts`.  `amount : ℚ` models the JS number. -/
structure ProcessedExpense where
  id : String
  dataType : DataType
  category : CategoryType
  categoryName : String
  idCtactb : String
  accountCode : String
  description : String
  level : Nat
  month : Nat
  year : Int
  amount : ℚ
  isVariable : Bool
  isSynthetic : Bool
deriving DecidableEq

/-- Embedding of `ThresholdConfig` from `types.ts`. -/
structure ThresholdConfig where
  healthyMax : ℚ
  criticalMin : ℚ
deriving DecidableEq

/-- Embedding of `DeviationData` from `types.ts`.  The optional `accountCode?` field is
modelled by `Option String`. -/
structure DeviationData where
  id : String
  description : String
  category : CategoryType
  accountCode : Option String
  level : Nat
  budget : ℚ
  real : ℚ
  absDeviation : ℚ
  percDeviation : ℚ
  status : DeviationStatus
deriving DecidableEq

/-- Embedding of `ParetoItem` from `types.ts`. -/
structure ParetoItem where
  name : String
  value : ℚ
  percent : ℚ
  cumulativePercent : ℚ
deriving DecidableEq

/-- Embedding of `getStatus` from `utils/dataProcessor.ts` (the four-band classifier):
```
if (percDev <= 0) return 'SAVING';
if (percDev <= config.healthyMax) return 'HEALTHY';
if (percDev < config.criticalMin) return 'WARNING';
return 'CRITICAL';
``` -/
def getStatus (percDev : ℚ) (config : ThresholdConfig) : DeviationStatus :=
  if percDev ≤ 0 then .SAVING
  else if percDev ≤ config.healthyMax then .HEALTHY
  else if percDev < config.criticalMin then .WARNING
  else .CRITICAL

/-- The `groupBy` argument of `calculateDeviations`:
`'CATEGORY' | 'ACCOUNT'`. -/
inductive GroupBy where
  | CATEGORY | ACCOUNT
deriving DecidableEq

/-- The grouping key used by `calculateDeviations`:
`groupBy === 'CATEGORY' ? item.category : item.accountCode`. -/
def groupKey (g : GroupBy) (item : ProcessedExpense) : String :=
  match g with
  | .CATEGORY => catKey item.category
  | .ACCOUNT => item.accountCode

/-- The fresh `DeviationData` entry installed by `calculateDeviations` when a
key is first seen (`map.set(key, {...})`). -/
def freshEntry (g : GroupBy) (item : ProcessedExpense) : DeviationData :=
  { id := groupKey g item
    description := match g with
      | .CATEGORY => item.categoryName
      | .ACCOUNT => item.description
    category := item.category
    accountCode := match g with
      | .ACCOUNT => some item.accountCode
      | .CATEGORY => none
    level := item.level
    budget := 0
    real := 0
    absDeviation := 0
    percDeviation := 0
    status := .HEALTHY }

/-- The accumulation step of `calculateDeviations`:
`if (item.dataType === 'REAL') entry.real += safeAmount; else entry.budget += safeAmount`.
(`safeAmount` guards against non-numeric/`NaN` amounts in JS; in the `ℚ`
model every amount is a number, so the guard is the identity.) -/
def addAmount (item : ProcessedExpense) (e : DeviationData) : DeviationData :=
  if item.dataType = .REAL then { e with real := e.real + item.amount }
  else { e with budget := e.budget + item.amount }

/-- Insertion-ordered association-list update, modelling
`if (!map.has(key)) map.set(key, fresh); f(map.get(key))` on a JS `Map`
(which iterates entries in insertion order): an existing key is updated in
place, a new key is appended at the end. -/
def upsertEntry (key : String) (f : DeviationData → DeviationData)
    (fresh : DeviationData) : List (String × DeviationData) →
    List (String × DeviationData)
  | [] => [(key, f fresh)]
  | (k, v) :: rest =>
      if k = key then (k, f v) :: rest
      else (k, v) :: upsertEntry key f fresh rest

/-- The `data.forEach` grouping loop of `calculateDeviations` (records of
category `'ROL'` are skipped). -/
def buildDevMap (g : GroupBy) : List (String × DeviationData) →
    List ProcessedExpense → List (String × DeviationData)
  | m, [] => m
  | m, item :: rest =>
      if item.category = .ROL then buildDevMap g m rest
      else buildDevMap g
        (upsertEntry (groupKey g item) (addAmount item) (freshEntry g item) m)
        rest

/-- The finalisation step of `calculateDeviations` (the `map` over
`Array.from(map.values())`): magnitudes, performance percentage with its
zero-budget guard, display deviation (sign-flipped), and status. -/
def finalizeDeviation (thresholds : ThresholdConfig) (item : DeviationData) :
    DeviationData :=
  let expenseReal := |item.real|
  let expenseBudget := |item.budget|
  let performanceDiff := expenseReal - expenseBudget
  let percDeviation :=
    if expenseBudget ≠ 0 then performanceDiff / expenseBudget * 100
    else if expenseReal > 0 then 100 else 0
  let displayDeviation := performanceDiff * -1
  { item with
      absDeviation := displayDeviation
      percDeviation := percDeviation
      status := getStatus percDeviation thresholds }

/-- Embedding of `calculateDeviations` from `utils/dataProcessor.ts`. -/
def calculateDeviations (data : List ProcessedExpense) (g : GroupBy)
    (thresholds : ThresholdConfig) : List DeviationData :=
  ((buildDevMap g [] data).map Prod.snd).map (finalizeDeviation thresholds)

/-- The comparator order used by
`sort((a, b) => a.absDeviation - b.absDeviation)` in `generatePareto`
(ascending `absDeviation`; `List.insertionSort` with this order models the
JS sort — tie order is immaterial to every use below). -/
def byAbsDeviation (a b : DeviationData) : Prop :=
  a.absDeviation ≤ b.absDeviation

instance : DecidableRel byAbsDeviation := fun a b =>
  inferInstanceAs (Decidable (a.absDeviation ≤ b.absDeviation))

instance : IsTotal DeviationData byAbsDeviation :=
  ⟨fun a b => le_total a.absDeviation b.absDeviation⟩

instance : IsTrans DeviationData byAbsDeviation :=
  ⟨fun _ _ _ h h' => le_trans h h'⟩

/-- The overruns of `generatePareto`, sorted most-negative first:
`[...deviations].filter(d => d.absDeviation < 0).sort((a,b) => a.absDeviation - b.absDeviation)`. -/
def paretoSorted (deviations : List DeviationData) : List DeviationData :=
  (deviations.filter (fun d => d.absDeviation < 0)).insertionSort byAbsDeviation

/-- Embedding of `sorted.reduce((acc, curr) => acc + Math.abs(curr.absDeviation), 0)`. -/
def paretoTotal (sorted : List DeviationData) : ℚ :=
  (sorted.map (fun d => |d.absDeviation|)).sum

/-- The `sorted.map` body of `generatePareto`, carrying the mutable
`accumulated` variable as an explicit accumulator. -/
def paretoItems (total : ℚ) : ℚ → List DeviationData → List ParetoItem
  | _, [] => []
  | accumulated, d :: rest =>
      let val := |d.absDeviation|
      let acc := accumulated + val
      { name := d.description
        value := val
        percent := val / total * 100
        cumulativePercent := if total > 0 then acc / total * 100 else 0 }
        :: paretoItems total acc rest

/-- Embedding of `generatePareto` from `utils/dataProcessor.ts` (note the `.slice(0, 10)`
truncation happens *after* the cumulative percentages are computed). -/
def generatePareto (deviations : List DeviationData) : List ParetoItem :=
  let sorted := paretoSorted deviations
  (paretoItems (paretoTotal sorted) 0 sorted).take 10

/-- Embedding of `CATEGORY_MAP[cat] || cat` from `constants.ts`: the display name of a
category, falling back to the category string itself (`'OUTROS'` is the only
category missing from `CATEGORY_MAP`). -/
def categoryMapName : CategoryType → String
  | .DC => "Despesas Comerciais"
  | .DL => "Despesas Logísticas"
  | .DA => "Despesas Administrativas"
  | .DF => "Despesas Financeiras"
  | .GGF => "Gastos Gerais de Fabricação"
  | .DP => "Depreciação"
  | .ROL => "Receita Líquida Operacional"
  | .OUTROS => "OUTROS"

/-- One heatmap cell (`{ diff, perc, real, budget }`). -/
structure HeatCell where
  diff : ℚ
  perc : ℚ
  real : ℚ
  budget : ℚ
deriving DecidableEq

/-- One heatmap row: `{ category, categoryName }` plus one cell per month,
keyed by the month's display name (the JS code stores the cells as dynamic
object properties `row[m.name]`, in `months` order). -/
structure HeatRow where
  category : CategoryType
  categoryName : String
  cells : List (String × HeatCell)
deriving DecidableEq

/-- The cell computation of `generateHeatmapData` for one category/month:
sums of REAL and ORCADO amounts, magnitude difference, and percentage with
the plain `: 0` zero-budget fallback. -/
def heatCell (data : List ProcessedExpense) (cat : CategoryType)
    (monthIndex : Nat) : HeatCell :=
  let real := ((data.filter (fun d =>
      d.month = monthIndex ∧ d.category = cat ∧ d.dataType = .REAL)).map
      (fun d => d.amount)).sum
  let budget := ((data.filter (fun d =>
      d.month = monthIndex ∧ d.category = cat ∧ d.dataType = .ORCADO)).map
      (fun d => d.amount)).sum
  let realMag := |real|
  let budgetMag := |budget|
  let diff := realMag - budgetMag
  let perc := if budgetMag ≠ 0 then diff / budgetMag * 100 else 0
  { diff := diff, perc := perc, real := real, budget := budget }

/-- Embedding of `generateHeatmapData` from `utils/dataProcessor.ts`.  `months` is the
list of `{ name, index }` pairs, `categories` the display-ordered category
list. -/
def generateHeatmapData (data : List ProcessedExpense)
    (months : List (String × Nat)) (categories : List CategoryType) :
    List HeatRow :=
  categories.map (fun cat =>
    { category := cat
      categoryName := categoryMapName cat
      cells := months.map (fun m => (m.1, heatCell data cat m.2)) })

/-- Embedding of `MONTH_NAMES` from `constants.ts`. -/
def MONTH_NAMES : List String :=
  ["Jan", "Fev", "Mar", "Abr", "Mai", "Jun",
   "Jul", "Ago", "Set", "Out", "Nov", "Dez"]

/-- Embedding of `MONTH_NAMES[i]` with JS out-of-bounds semantics (`undefined`). -/
def monthNameAt (i : Int) : String :=
  if 0 ≤ i ∧ i < 12 then MONTH_NAMES.getD i.toNat "" else "undefined"

/-- One entry of the `PERIODS` record from `constants.ts`. -/
structure Period where
  label : String
  months : List Nat
deriving DecidableEq

/-- Embedding of `PERIODS` from `constants.ts`, as a list in declaration order
(`Object.values(PERIODS)` iterates the entries in this order). -/
def PERIODS : List Period :=
  [ { label := "Ano Completo", months := [1,2,3,4,5,6,7,8,9,10,11,12] },
    { label := "1º Trimestre", months := [1,2,3] },
    { label := "2º Trimestre", months := [4,5,6] },
    { label := "3º Trimestre", months := [7,8,9] },
    { label := "4º Trimestre", months := [10,11,12] },
    { label := "1º Semestre", months := [1,2,3,4,5,6] },
    { label := "2º Semestre", months := [7,8,9,10,11,12] },
    { label := "Janeiro", months := [1] },
    { label := "Fevereiro", months := [2] },
    { label := "Março", months := [3] },
    { label := "Abril", months := [4] },
    { label := "Maio", months := [5] },
    { label := "Junho", months := [6] },
    { label := "Julho", months := [7] },
    { label := "Agosto", months := [8] },
    { label := "Setembro", months := [9] },
    { label := "Outubro", months := [10] },
    { label := "Novembro", months := [11] },
    { label := "Dezembro", months := [12] } ]

/-- Embedding of `filterDataByPeriod` from `utils/dataProcessor.ts`:
an empty month selection disables the filter. -/
def filterDataByPeriod (data : List ProcessedExpense) (months : List Nat) :
    List ProcessedExpense :=
  if months.length = 0 then data
  else data.filter (fun d => months.contains d.month)

/-- Embedding of `getPeriodLabel` from `utils/dataProcessor.ts`.  The length-12 and
length-0 checks come first; then the preset match
(`Object.values(PERIODS).find(...)` — first preset with the same length
whose months are all selected); then the one-month and up-to-three-month
displays; otherwise a count string. -/
def getPeriodLabel (months : List Nat) : String :=
  if months.length = 12 then "Ano Completo"
  else if months.length = 0 then "Nenhum Mês"
  else
    match PERIODS.find? (fun p =>
        p.months.length = months.length ∧
        ∀ m ∈ p.months, months.contains m) with
    | some p => p.label
    | none =>
        if months.length = 1 then
          monthNameAt ((months.headD 0 : Int) - 1)
        else if months.length ≤ 3 then
          String.intercalate ", "
            ((months.insertionSort (· ≤ ·)).map
              (fun m => monthNameAt ((m : Int) - 1)))
        else
          toString months.length ++ " Meses Selecionados"

/-- Embedding of `String.prototype.startsWith` (JS): prefix test on the character
sequence (all account codes are ASCII, so code-unit prefix and character
prefix agree). -/
def strStartsWith (pre s : String) : Bool := pre.data.isPrefixOf s.data

/-- One value of the `tempMap` in MODE 2 of `filteredData`
(`views/MicroView.tsx`): the metadata row and the accumulated level-2
amount. -/
structure L2Entry where
  meta : ProcessedExpense
  l2Amount : ℚ
deriving DecidableEq

/-- The `l2Rows.forEach` loop of MODE 2: first sight of an account code
installs `{ meta: row, l2Amount: 0 }` (appended, JS `Map` insertion order),
then `l2Amount += row.amount`. -/
def upsertL2 (row : ProcessedExpense) : List (String × L2Entry) →
    List (String × L2Entry)
  | [] => [(row.accountCode, { meta := row, l2Amount := row.amount })]
  | (k, v) :: rest =>
      if k = row.accountCode then
        (k, { v with l2Amount := v.l2Amount + row.amount }) :: rest
      else (k, v) :: upsertL2 row rest

/-- The `tempMap` of MODE 2, built over the level-2 rows in order. -/
def buildTempMap : List (String × L2Entry) → List ProcessedExpense →
    List (String × L2Entry)
  | m, [] => m
  | m, row :: rest => buildTempMap (upsertL2 row m) rest

/-- The level-5 fallback sum of MODE 2
(`groupItems.filter(d => d.level === 5 && d.accountCode.startsWith(key))`):
note the prefix test is a *plain* `startsWith(key)`, with no dot appended. -/
def mode2ChildSum (groupItems : List ProcessedExpense) (key : String) : ℚ :=
  ((groupItems.filter (fun d =>
      d.level = 5 ∧ strStartsWith key d.accountCode)).map
      (fun d => d.amount)).sum

/-- MODE 2 of `filteredData` in `views/MicroView.tsx` (lines 203-234): the
per-level-2-account rows of a synthetic group, with the zero-amount fallback
to the level-5 sum.  `groupItems` is the candidate set already restricted to
the focused group. -/
def mode2Result (groupItems : List ProcessedExpense) :
    List ProcessedExpense :=
  let l2Rows := groupItems.filter (fun d => d.level = 2)
  let tempMap := buildTempMap [] l2Rows
  tempMap.map (fun p =>
    let finalAmount :=
      if |p.2.l2Amount| < 1/100 then mode2ChildSum groupItems p.1
      else p.2.l2Amount
    { p.2.meta with amount := finalAmount })

/-- The level-5 descendant sum of the MODE 3 final-amount recalculation in
`views/MicroView.tsx` (lines 286-295): same year, REAL, level 5, same
category, and `accountCode === parent || accountCode.startsWith(parent + '.')`. -/
def mode3ChildrenSum (periodData : List ProcessedExpense)
    (selectedYear : Int) (meta : ProcessedExpense) : ℚ :=
  ((periodData.filter (fun d =>
      d.year = selectedYear ∧ d.dataType = .REAL ∧ d.level = 5 ∧
      d.category = meta.category ∧
      (d.accountCode = meta.accountCode ∨
        strStartsWith (meta.accountCode ++ ".") d.accountCode))).map
      (fun d => d.amount)).sum

/-- The MODE 3 final-amount recalculation of `filteredData` in
`views/MicroView.tsx` (lines 280-304), for one aggregated entry
`{ meta, amount }`: a non-level-5 row is replaced by its level-5 descendant
sum when that sum is significant or the aggregated amount is (numerically)
zero. -/
def recalcParent (periodData : List ProcessedExpense) (selectedYear : Int)
    (meta : ProcessedExpense) (amount : ℚ) : ProcessedExpense :=
  if meta.level < 5 then
    let childrenSum := mode3ChildrenSum periodData selectedYear meta
    if 1/100 < |childrenSum| ∨ |amount| < 1/100 then
      { meta with amount := childrenSum }
    else { meta with amount := amount }
  else { meta with amount := amount }

/-! ### Forecast engine (`utils/forecastEngine.ts`) -/

/-- One point of the internal `timeSeries` array of `generateForecast`:
`{ t, val, month, year, key }`.  The `"YYYY-MM"` string key is modelled by
the pair `(year, month)` (the zero-padded string encoding is injective on
months 1-12). -/
structure TimePoint where
  t : Nat
  val : ℚ
  month : Nat
  year : Int
  key : Int × Nat
deriving DecidableEq

/-- Embedding of `ForecastPoint` from `utils/forecastEngine.ts`.  The optional
`historical?` field is `Option ℚ`; `dateKey` is the `(year, month)` pair. -/
structure ForecastPoint where
  dateKey : Int × Nat
  monthIndex : Nat
  year : Int
  monthName : String
  historical : Option ℚ
  scenarioBase : ℚ
  scenarioOptimistic : ℚ
  scenarioPessimistic : ℚ
  isProjected : Bool
deriving DecidableEq

/-- Embedding of `CategoryDriver` from `utils/forecastEngine.ts`. -/
structure CategoryDriver where
  category : CategoryType
  categoryName : String
  trendSlope : ℚ
  totalImpact : ℚ
  correlation : ℚ
deriving DecidableEq

/-- One seasonality insight `{ month, factor, description }`. -/
structure SeasonInsight where
  month : String
  factor : ℚ
  description : String
deriving DecidableEq

/-- The `nextYearTotal` record of `ForecastResult`. -/
structure NextYearTotal where
  base : ℚ
  optimistic : ℚ
  pessimistic : ℚ
deriving DecidableEq

/-- Embedding of `ForecastResult` from `utils/forecastEngine.ts`.  The
`monthlyProjections` record (keyed by `` `${year}-${month}` ``, unpadded but
still an injective encoding of the pair) is an association list. -/
structure ForecastResult where
  chartData : List ForecastPoint
  monthlyProjections : List ((Int × Nat) × ℚ)
  nextYearTotal : NextYearTotal
  drivers : List CategoryDriver
  seasonalityInsights : List SeasonInsight
deriving DecidableEq

/-- Association-list lookup (JS `map.get(key)`). -/
def lookupKey {κ β : Type} [DecidableEq κ] (k : κ) :
    List (κ × β) → Option β
  | [] => none
  | p :: rest => if p.1 = k then some p.2 else lookupKey k rest

/-- Embedding of `map.set(key, (map.get(key) || 0) + q)` on a JS `Map` of numbers:
update in place, or append a new key at the end (insertion order). -/
def addToMap {κ : Type} [DecidableEq κ] (k : κ) (q : ℚ) :
    List (κ × ℚ) → List (κ × ℚ)
  | [] => [(k, q)]
  | p :: rest =>
      if p.1 = k then (p.1, p.2 + q) :: rest else p :: addToMap k q rest

/-- The nested `categoryMonthlyTotals` update: per-category month maps, both
levels in insertion order. -/
def addToCatMap (c : CategoryType) (k : Int × Nat) (q : ℚ) :
    List (CategoryType × List ((Int × Nat) × ℚ)) →
    List (CategoryType × List ((Int × Nat) × ℚ))
  | [] => [(c, [(k, q)])]
  | p :: rest =>
      if p.1 = c then (p.1, addToMap k q p.2) :: rest
      else p :: addToCatMap c k q rest

/-- The numerator `n * sumXY - sumX * sumY` of the `slope` computed by
`getLinearRegression` (over `x = 0, 1, ..., n-1`). -/
def regressionNumerator (y : List ℚ) : ℚ :=
  let n : ℚ := y.length
  let x : List ℚ := (List.range y.length).map (fun i => (i : ℚ))
  n * ((x.zip y).map (fun p => p.1 * p.2)).sum - x.sum * y.sum

/-- The divisor `n * sumXX - sumX * sumX` of the `slope` computed by
`getLinearRegression`.  It is zero exactly when the series has at most one
point.  On such input JavaScript computes `slope = 0 / 0 = NaN`, and the
`NaN` then propagates through every later arithmetic step of
`generateForecast` — the `trendValue !== 0` guard passes for `NaN`, and
`Math.max(0, NaN)` is `NaN` — so every projected scenario value of the
program is `NaN` on a single-month dataset. -/
def regressionDenominator (y : List ℚ) : ℚ :=
  let n : ℚ := y.length
  let x : List ℚ := (List.range y.length).map (fun i => (i : ℚ))
  n * (x.map (fun v => v * v)).sum - x.sum * x.sum

/-- Embedding of `getLinearRegression` from `utils/forecastEngine.ts`:
least-squares slope and intercept over `x = 0, 1, ..., n-1`.  `ℚ` has no
`NaN`: where JavaScript divides zero by zero (series of at most one point,
see `regressionDenominator`) this model returns `0`.  The single-month
`NaN` path of the program is therefore not representable here; it is
recorded as the scenario-floor code bug below. -/
def getLinearRegression (y : List ℚ) : ℚ × ℚ :=
  let n : ℚ := y.length
  let sumX := (((List.range y.length).map (fun i => (i : ℚ)))).sum
  let slope := regressionNumerator y / regressionDenominator y
  let intercept := (y.sum - slope * sumX) / n
  (slope, intercept)

/-- Modelled: `Math.sqrt` on a `ℚ`.  `ℚ` has no exact square root, so the
(inexact, like the JS double-precision original) square root is taken with
integer precision via `Nat.sqrt`; it is exact at perfect squares (in
particular at `0`, the only value any theorem below evaluates it at), and no
theorem in this file depends on its value elsewhere. -/
def ratSqrt (q : ℚ) : ℚ :=
  if q ≤ 0 then 0 else (Nat.sqrt (q.num.toNat * q.den) : ℚ) / (q.den : ℚ)

/-- Embedding of `getStandardDeviation` from `utils/forecastEngine.ts` (population
standard deviation; returns 0 on the empty list). -/
def getStandardDeviation (arr : List ℚ) : ℚ :=
  if arr.length = 0 then 0
  else
    let n : ℚ := arr.length
    let mean := arr.sum / n
    ratSqrt (((arr.map (fun x => (x - mean) * (x - mean))).sum) / n)

/-- The candidate `(year, month)` keys scanned by the timeline loop of
`generateForecast`: every month of every year from `startYear` to
`endYear`. -/
def monthKeysRange (startYear endYear : Int) : List (Int × Nat) :=
  (List.range ((endYear - startYear).toNat + 1)).flatMap (fun dy =>
    (List.range 12).map (fun m => (startYear + dy, m + 1)))

/-- The `timeSeries` array of `generateForecast`: the candidate keys that
actually occur in `monthlyTotals`, in chronological order, with `t` the
running index (the JS `t++` counter increments only on inclusion). -/
def mkTimeSeries (monthlyTotals : List ((Int × Nat) × ℚ))
    (startYear endYear : Int) : List TimePoint :=
  (((monthKeysRange startYear endYear).filterMap (fun k =>
      (lookupKey k monthlyTotals).map (fun v => (k, v)))).enum).map
    (fun p => { t := p.1, val := p.2.2, month := p.2.1.2,
                year := p.2.1.1, key := p.2.1 })

/-- The seasonal index of month `i` (1-12): the average, over the time-series
points of that month, of `val / trend` (the ratio defaults to 1 when the
trend value is 0, and the average defaults to 1 when the month never
occurs). -/
def seasonalIndex (ts : List TimePoint) (slope intercept : ℚ) (i : Nat) :
    ℚ :=
  let ratios := (ts.filter (fun p => p.month = i)).map (fun p =>
      let trendValue := slope * (p.t : ℚ) + intercept
      if trendValue ≠ 0 then p.val / trendValue else 1)
  if ratios.length = 0 then 1 else ratios.sum / (ratios.length : ℚ)

/-- Modelled: `Number.prototype.toFixed(1)` — decimal rounding to one
fractional digit (ties rounded up in absolute value; the binary-float tie
behaviour of the JS original is not representable over `ℚ`). -/
def toFixed1 (q : ℚ) : String :=
  let r : Int := round (q * 10)
  let body := fun (n : Nat) => toString (n / 10) ++ "." ++ toString (n % 10)
  if r < 0 then "-" ++ body r.natAbs else body r.natAbs

/-- Descending-`factor` order for the seasonality-insight sort
(`sort((a, b) => b.factor - a.factor)`). -/
def byFactorDesc (a b : SeasonInsight) : Prop := b.factor ≤ a.factor

instance : DecidableRel byFactorDesc := fun a b =>
  inferInstanceAs (Decidable (b.factor ≤ a.factor))

/-- The seasonality-insight pass of `generateForecast`: months whose average
seasonal ratio exceeds 1.05, sorted by factor descending. -/
def seasonalityInsightsOf (ts : List TimePoint) (slope intercept : ℚ) :
    List SeasonInsight :=
  (((List.range 12).map (fun i => i + 1)).filterMap (fun i =>
      let avgRatio := seasonalIndex ts slope intercept i
      if avgRatio > 21/20 then
        some { month := monthNameAt ((i : Int) - 1)
               factor := avgRatio
               description := "Historicamente, " ++
                 monthNameAt ((i : Int) - 1) ++
                 " apresenta despesas " ++ toFixed1 (avgRatio * 100 - 100) ++
                 "% acima da mÃ©dia anual." }
      else none)).insertionSort byFactorDesc

/-- The future `(year, month)` of projection step `i`: closed form of the
`while (futureMonth > 12) { futureMonth -= 12; futureYear++ }` loop. -/
def futureYM (lastYear : Int) (lastMonth i : Nat) : Int × Nat :=
  (lastYear + ((lastMonth + i - 1) / 12 : Nat), (lastMonth + i - 1) % 12 + 1)

/-- The projection loop of `generateForecast` (`for i = 1 .. projectionMonths`):
trend times seasonal index, floored at 0, with an uncertainty cone of
`stdDev * (1 + i * 0.05)` subtracted (optimistic) or added (pessimistic),
each also floored at 0. -/
def projectionList (slope intercept stdDev : ℚ) (seasonal : Nat → ℚ)
    (lastT : Nat) (lastYear : Int) (lastMonth : Nat)
    (projectionMonths : Nat) : List ForecastPoint :=
  ((List.range projectionMonths).map (fun j => j + 1)).map (fun i =>
    let futureT := lastT + i
    let ym := futureYM lastYear lastMonth i
    let trend := slope * (futureT : ℚ) + intercept
    let baseVal := max 0 (trend * seasonal ym.2)
    let uncertainty := stdDev * (1 + (i : ℚ) * (1/20))
    let optVal := max 0 (baseVal - uncertainty)
    let pessVal := max 0 (baseVal + uncertainty)
    { dateKey := ym
      monthIndex := ym.2
      year := ym.1
      monthName := monthNameAt ((ym.2 : Int) - 1)
      historical := none
      scenarioBase := baseVal
      scenarioOptimistic := optVal
      scenarioPessimistic := pessVal
      isProjected := true })

/-- Descending-`trendSlope` order for the driver sort
(`sort((a, b) => b.trendSlope - a.trendSlope)`). -/
def byTrendSlopeDesc (a b : CategoryDriver) : Prop :=
  b.trendSlope ≤ a.trendSlope

instance : DecidableRel byTrendSlopeDesc := fun a b =>
  inferInstanceAs (Decidable (b.trendSlope ≤ a.trendSlope))

/-- The driver-analysis pass of `generateForecast`: a per-category linear
regression over the time-series keys, sorted by slope descending.  (The
division `totalVol / catValues.length` is `NaN` in JS only when the time
series is empty, which cannot happen on the non-degenerate path; `avg > 0`
guards the `correlation` division.) -/
def driversOf (catTotals : List (CategoryType × List ((Int × Nat) × ℚ)))
    (ts : List TimePoint) : List CategoryDriver :=
  (catTotals.map (fun p =>
      let catValues := ts.map (fun pt => (lookupKey pt.key p.2).getD 0)
      let catReg := getLinearRegression catValues
      let totalVol := catValues.sum
      let avg := totalVol / (catValues.length : ℚ)
      let normalizedGrowth := if avg > 0 then catReg.1 / avg else 0
      { category := p.1
        categoryName := categoryMapName p.1
        trendSlope := catReg.1
        totalImpact := totalVol
        correlation := normalizedGrowth })).insertionSort byTrendSlopeDesc

/-- The empty `ForecastResult` returned on degenerate input. -/
def emptyForecastResult : ForecastResult :=
  { chartData := []
    monthlyProjections := []
    nextYearTotal := { base := 0, optimistic := 0, pessimistic := 0 }
    drivers := []
    seasonalityInsights := [] }

/-- A placeholder `TimePoint` for the (unreachable on the non-degenerate
path) empty-list default of `timeSeries[timeSeries.length - 1]`. -/
def dummyTimePoint : TimePoint :=
  { t := 0, val := 0, month := 1, year := 0, key := (0, 1) }

/-- Embedding of `generateForecast` from `utils/forecastEngine.ts`.  (JS default
`projectionMonths = 12` is passed explicitly by callers of this model.)
The sorted `years` list models `Array.from(new Set(...)).sort()` — only its
first and last elements are read, and those agree with the JS string sort on
equal-width year numbers. -/
def generateForecast (data : List ProcessedExpense)
    (projectionMonths : Nat) : ForecastResult :=
  let expenses := data.filter (fun d =>
      d.dataType = .REAL ∧ d.category ≠ .ROL)
  if expenses = [] then emptyForecastResult
  else
    let years := ((expenses.map (fun d => d.year)).dedup).insertionSort
        (· ≤ ·)
    let startYear := years.headD 0
    let endYear := years.getLastD 0
    let monthlyTotals := expenses.foldl (fun m d =>
        addToMap (d.year, d.month) d.amount m) []
    let catTotals := expenses.foldl (fun m d =>
        addToCatMap d.category (d.year, d.month) d.amount m) []
    let ts := mkTimeSeries monthlyTotals startYear endYear
    let reg := getLinearRegression (ts.map (fun p => p.val))
    let slope := reg.1
    let intercept := reg.2
    let seasonal := fun i => seasonalIndex ts slope intercept i
    let insights := seasonalityInsightsOf ts slope intercept
    let residuals := ts.map (fun p =>
        p.val - (slope * (p.t : ℚ) + intercept) * seasonal p.month)
    let stdDev := getStandardDeviation residuals
    let histPoints := ts.map (fun pt =>
        ({ dateKey := pt.key
           monthIndex := pt.month
           year := pt.year
           monthName := monthNameAt ((pt.month : Int) - 1)
           historical := some pt.val
           scenarioBase := pt.val
           scenarioOptimistic := pt.val
           scenarioPessimistic := pt.val
           isProjected := false } : ForecastPoint))
    let lastPt := ts.getLastD dummyTimePoint
    let proj := projectionList slope intercept stdDev seasonal lastPt.t
        lastPt.year lastPt.month projectionMonths
    { chartData := histPoints ++ proj
      monthlyProjections := proj.map (fun p => (p.dateKey, p.scenarioBase))
      nextYearTotal :=
        { base := (proj.map (fun p => p.scenarioBase)).sum
          optimistic := (proj.map (fun p => p.scenarioOptimistic)).sum
          pessimistic := (proj.map (fun p => p.scenarioPessimistic)).sum }
      drivers := driversOf catTotals ts
      seasonalityInsights := insights }

/-! ### Concrete example data used by the claims -/

/-- A sample expense record (category DC, level 2, January 2024). -/
def mkRec (dt : DataType) (amount : ℚ) : ProcessedExpense :=
  { id := "r"
    dataType := dt
    category := .DC
    categoryName := "Despesas Comerciais"
    idCtactb := "DC AN"
    accountCode := "4.3"
    description := "conta"
    level := 2
    month := 1
    year := 2024
    amount := amount
    isVariable := false
    isSynthetic := false }

/-- The end-to-end scenario of the spec: one ACTUAL (`REAL`) record of
`-120` and one BUDGET (`ORCADO`) record of `-100` in one bucket. -/
def ex1 : List ProcessedExpense := [mkRec .REAL (-120), mkRec .ORCADO (-100)]

/-- Actual magnitude 80 against budget magnitude 100. -/
def ex2 : List ProcessedExpense := [mkRec .REAL 80, mkRec .ORCADO 100]

/-- A placeholder `DeviationData` used as a `headD` default. -/
def dummyDeviation : DeviationData :=
  { id := "", description := "", category := .OUTROS, accountCode := none
    level := 0, budget := 0, real := 0, absDeviation := 0, percDeviation := 0
    status := .HEALTHY }

/-- The single bucket produced by `calculateDeviations` on `ex1` (the
membership proof in the C1 witness checks this record against the actual
output). -/
def ex1Bucket : DeviationData :=
  { id := "DC", description := "Despesas Comerciais", category := .DC
    accountCode := none, level := 2, budget := -100, real := -120
    absDeviation := -20, percDeviation := 20, status := .CRITICAL }

/-! ### C2 — threshold classifier boundaries -/

/-- C2: for thresholds with `0 ≤ healthyMax < criticalMin` the classifier
realises exactly the four bands `perf ≤ 0 → SAVING`,
`0 < perf ≤ healthyMax → HEALTHY`, `healthyMax < perf < criticalMin →
WARNING`, `perf ≥ criticalMin → CRITICAL`, and with `healthyMax = 10`,
`criticalMin = 20`: `10 → HEALTHY`, `10.0001 → WARNING`,
`19.999 → WARNING`, `20 → CRITICAL`, `0 → SAVING`. -/
theorem getStatus_boundary_exactness (perf : ℚ) (t : ThresholdConfig)
    (h0 : 0 ≤ t.healthyMax) (h1 : t.healthyMax < t.criticalMin) :
    (getStatus perf t = .SAVING ↔ perf ≤ 0) ∧
    (getStatus perf t = .HEALTHY ↔ 0 < perf ∧ perf ≤ t.healthyMax) ∧
    (getStatus perf t = .WARNING ↔
      t.healthyMax < perf ∧ perf < t.criticalMin) ∧
    (getStatus perf t = .CRITICAL ↔ t.criticalMin ≤ perf) ∧
    getStatus 10 ⟨10, 20⟩ = .HEALTHY ∧
    getStatus (100001/10000) ⟨10, 20⟩ = .WARNING ∧
    getStatus (19999/1000) ⟨10, 20⟩ = .WARNING ∧
    getStatus 20 ⟨10, 20⟩ = .CRITICAL ∧
    getStatus 0 ⟨10, 20⟩ = .SAVING := by
  have H : (getStatus perf t = .SAVING ↔ perf ≤ 0) ∧
      (getStatus perf t = .HEALTHY ↔ 0 < perf ∧ perf ≤ t.healthyMax) ∧
      (getStatus perf t = .WARNING ↔
        t.healthyMax < perf ∧ perf < t.criticalMin) ∧
      (getStatus perf t = .CRITICAL ↔ t.criticalMin ≤ perf) := by
    unfold getStatus
    split_ifs with ha hb hc
    · refine ⟨iff_of_true rfl ha, iff_of_false (by decide) ?_,
        iff_of_false (by decide) ?_, iff_of_false (by decide) ?_⟩
      · rintro ⟨hp, -⟩
        linarith
      · rintro ⟨hp, -⟩
        linarith
      · intro hp
        linarith
    · refine ⟨iff_of_false (by decide) ha,
        iff_of_true rfl ⟨not_le.mp ha, hb⟩,
        iff_of_false (by decide) ?_, iff_of_false (by decide) ?_⟩
      · rintro ⟨hp, -⟩
        linarith
      · intro hp
        linarith
    · refine ⟨iff_of_false (by decide) ha,
        iff_of_false (by decide) ?_,
        iff_of_true rfl ⟨not_le.mp hb, hc⟩,
        iff_of_false (by decide) ?_⟩
      · rintro ⟨-, hp⟩
        exact hb hp
      · intro hp
        linarith
    · refine ⟨iff_of_false (by decide) ha,
        iff_of_false (by decide) ?_,
        iff_of_false (by decide) ?_,
        iff_of_true rfl (not_lt.mp hc)⟩
      · rintro ⟨-, hp⟩
        exact hb hp
      · rintro ⟨-, hp⟩
        exact hc hp
  exact ⟨H.1, H.2.1, H.2.2.1, H.2.2.2, by norm_num [getStatus],
    by norm_num [getStatus], by norm_num [getStatus],
    by norm_num [getStatus], by norm_num [getStatus]⟩

/-- Witness for C2 at `perf = 15`, thresholds `⟨10, 20⟩`. -/
theorem getStatus_boundary_exactness_witness :
    (getStatus 15 ⟨10, 20⟩ = .WARNING ↔ (10 : ℚ) < 15 ∧ (15 : ℚ) < 20) :=
  (getStatus_boundary_exactness 15 ⟨10, 20⟩ (by norm_num) (by norm_num)).2.2.1

/-! ### C7 — period presets round-trip, empty filter -/

/-- C7: `getPeriodLabel` applied to any built-in preset's month list
returns that preset's label, and `filterDataByPeriod` with an empty month
selection returns the data unchanged. -/
theorem periodLabel_roundtrip_and_empty_filter :
    (∀ p ∈ PERIODS, getPeriodLabel p.months = p.label) ∧
    (∀ data : List ProcessedExpense, filterDataByPeriod data [] = data) := by
  constructor
  · decide
  · intro data
    rfl

/-- Witness for C7 at the `Q1` preset. -/
theorem periodLabel_roundtrip_witness :
    getPeriodLabel [1, 2, 3] = "1º Trimestre" ∧
    filterDataByPeriod ex1 [] = ex1 :=
  ⟨periodLabel_roundtrip_and_empty_filter.1
      ⟨"1º Trimestre", [1, 2, 3]⟩ (by decide),
    periodLabel_roundtrip_and_empty_filter.2 ex1⟩

/-! ### C10 — length-12 shortcut and empty label -/

/-- C10: any 12-element month list (even with duplicates or out-of-range
entries) is labelled `'Ano Completo'` because the length check precedes the
preset match, and the empty list gets the fixed label `'Nenhum Mês'`. -/
theorem periodLabel_length12_shortcut :
    (∀ months : List Nat, months.length = 12 →
      getPeriodLabel months = "Ano Completo") ∧
    getPeriodLabel [1, 1, 1, 1, 1, 1, 1, 1, 1, 1, 1, 13] = "Ano Completo" ∧
    getPeriodLabel [] = "Nenhum Mês" := by
  refine ⟨fun months h => ?_, by decide, by decide⟩
  unfold getPeriodLabel
  rw [if_pos h]

/-- Witness for C10 at a duplicate-containing 12-element list. -/
theorem periodLabel_length12_shortcut_witness :
    getPeriodLabel [2, 2, 2, 2, 2, 2, 2, 2, 2, 2, 2, 2] = "Ano Completo" :=
  periodLabel_length12_shortcut.1 [2, 2, 2, 2, 2, 2, 2, 2, 2, 2, 2, 2] rfl

/-! ### C1 — deviation formulas -/

/-- Embedding of `finalizeDeviation` keeps the aggregated sums and writes the display
deviation, the performance percentage and the status as functions of them. -/
lemma finalizeDeviation_fields (t : ThresholdConfig) (e : DeviationData) :
    (finalizeDeviation t e).real = e.real ∧
    (finalizeDeviation t e).budget = e.budget ∧
    (finalizeDeviation t e).percDeviation =
      (if |e.budget| ≠ 0 then (|e.real| - |e.budget|) / |e.budget| * 100
       else if |e.real| > 0 then 100 else 0) ∧
    (finalizeDeviation t e).absDeviation = |e.budget| - |e.real| ∧
    (finalizeDeviation t e).status =
      getStatus (finalizeDeviation t e).percDeviation t := by
  refine ⟨rfl, rfl, rfl, ?_, rfl⟩
  show (|e.real| - |e.budget|) * -1 = |e.budget| - |e.real|
  ring

/-- C1: every bucket of `calculateDeviations` satisfies the magnitude-based
formulas — `percDeviation = (|real| - |budget|) / |budget| * 100` with the
zero-budget fallback (`100` when `|real| > 0`, else `0`),
`absDeviation = |budget| - |real|`, and the status classified from
`percDeviation`; and the two concrete scenarios: amounts `-120`
(actual) vs `-100` (budget) give `(20, CRITICAL, -20)`, and `80` vs `100`
give `(-20, SAVING, 20)` (thresholds `healthyMax = 10`,
`criticalMin = 20`). -/
theorem calculateDeviations_formulas :
    (∀ (data : List ProcessedExpense) (g : GroupBy) (t : ThresholdConfig),
      ∀ r ∈ calculateDeviations data g t,
        r.percDeviation =
          (if |r.budget| ≠ 0 then (|r.real| - |r.budget|) / |r.budget| * 100
           else if |r.real| > 0 then 100 else 0) ∧
        r.absDeviation = |r.budget| - |r.real| ∧
        r.status = getStatus r.percDeviation t) ∧
    (calculateDeviations ex1 .CATEGORY ⟨10, 20⟩).map
      (fun r => (r.percDeviation, r.status, r.absDeviation)) =
      [(20, .CRITICAL, -20)] ∧
    (calculateDeviations ex2 .CATEGORY ⟨10, 20⟩).map
      (fun r => (r.percDeviation, r.status, r.absDeviation)) =
      [(-20, .SAVING, 20)] := by
  refine ⟨?_, ?_, ?_⟩
  · intro data g t r hr
    obtain ⟨e, -, rfl⟩ := List.mem_map.mp hr
    obtain ⟨h1, h2, h3, h4, h5⟩ := finalizeDeviation_fields t e
    rw [h1, h2]
    exact ⟨h3, h4, h5⟩
  · simp [ex1, mkRec, calculateDeviations, buildDevMap, upsertEntry,
      addAmount, freshEntry, groupKey, catKey, finalizeDeviation, getStatus]
    try norm_num
  · simp [ex2, mkRec, calculateDeviations, buildDevMap, upsertEntry,
      addAmount, freshEntry, groupKey, catKey, finalizeDeviation, getStatus]
    try norm_num

/-- Witness for C1: the formulas instantiated at the bucket produced by the
`ex1` scenario. -/
theorem calculateDeviations_formulas_witness :
    ex1Bucket.percDeviation =
      (if |ex1Bucket.budget| ≠ 0 then
        (|ex1Bucket.real| - |ex1Bucket.budget|) / |ex1Bucket.budget| * 100
       else if |ex1Bucket.real| > 0 then 100 else 0) ∧
    ex1Bucket.absDeviation = |ex1Bucket.budget| - |ex1Bucket.real| ∧
    ex1Bucket.status = getStatus ex1Bucket.percDeviation ⟨10, 20⟩ :=
  calculateDeviations_formulas.1 ex1 .CATEGORY ⟨10, 20⟩ ex1Bucket (by
    simp [ex1, ex1Bucket, mkRec, calculateDeviations, buildDevMap,
      upsertEntry, addAmount, freshEntry, groupKey, catKey,
      finalizeDeviation, getStatus]
    try norm_num)

/-! ### C6 — sign invariance of the classification -/

/-- Negation of a record's amount (same magnitude, opposite sign). -/
def negAmount (item : ProcessedExpense) : ProcessedExpense :=
  { item with amount := -item.amount }

/-- Negation of both aggregated sums of a bucket entry. -/
def entryNeg (e : DeviationData) : DeviationData :=
  { e with real := -e.real, budget := -e.budget }

/-- Negation of every entry of the grouping map. -/
def mapNeg (m : List (String × DeviationData)) :
    List (String × DeviationData) :=
  m.map (fun p => (p.1, entryNeg p.2))

lemma groupKey_negAmount (g : GroupBy) (item : ProcessedExpense) :
    groupKey g (negAmount item) = groupKey g item := by
  cases g <;> rfl

lemma freshEntry_neg (g : GroupBy) (item : ProcessedExpense) :
    freshEntry g (negAmount item) = entryNeg (freshEntry g item) := by
  cases g <;> simp [freshEntry, entryNeg, negAmount, groupKey, catKey]

lemma addAmount_neg (item : ProcessedExpense) (e : DeviationData) :
    addAmount (negAmount item) (entryNeg e) = entryNeg (addAmount item e) := by
  unfold addAmount negAmount entryNeg
  split_ifs <;> simp <;> ring

lemma upsertEntry_neg (g : GroupBy) (item : ProcessedExpense) :
    ∀ m : List (String × DeviationData),
      upsertEntry (groupKey g (negAmount item)) (addAmount (negAmount item))
        (freshEntry g (negAmount item)) (mapNeg m) =
      mapNeg (upsertEntry (groupKey g item) (addAmount item)
        (freshEntry g item) m)
  | [] => by
      simp [upsertEntry, mapNeg, addAmount_neg, freshEntry_neg,
        groupKey_negAmount]
  | (k, v) :: rest => by
      simp only [mapNeg, List.map, upsertEntry, groupKey_negAmount]
      by_cases hk : k = groupKey g item
      · simp [hk, addAmount_neg]
      · simpa [hk, mapNeg] using upsertEntry_neg g item rest

lemma buildDevMap_neg (g : GroupBy) :
    ∀ (data : List ProcessedExpense) (m : List (String × DeviationData)),
      buildDevMap g (mapNeg m) (data.map negAmount) =
      mapNeg (buildDevMap g m data)
  | [], m => by simp [buildDevMap]
  | item :: rest, m => by
      have hcat : (negAmount item).category = item.category := rfl
      simp only [List.map, buildDevMap, hcat]
      by_cases hR : item.category = .ROL
      · simp only [hR, if_pos rfl]
        exact buildDevMap_neg g rest m
      · rw [if_neg hR, if_neg hR, upsertEntry_neg]
        exact buildDevMap_neg g rest _

lemma finalizeDeviation_neg (t : ThresholdConfig) (e : DeviationData) :
    (finalizeDeviation t (entryNeg e)).id = (finalizeDeviation t e).id ∧
    (finalizeDeviation t (entryNeg e)).status =
      (finalizeDeviation t e).status ∧
    (finalizeDeviation t (entryNeg e)).percDeviation =
      (finalizeDeviation t e).percDeviation := by
  unfold finalizeDeviation entryNeg
  simp [abs_neg]

/-- C6: negating every record's amount (keeping magnitudes) leaves every
bucket's id, status and performance percentage of `calculateDeviations`
unchanged. -/
theorem calculateDeviations_sign_invariance (data : List ProcessedExpense)
    (g : GroupBy) (t : ThresholdConfig) :
    (calculateDeviations (data.map negAmount) g t).map
      (fun r => (r.id, r.status, r.percDeviation)) =
    (calculateDeviations data g t).map
      (fun r => (r.id, r.status, r.percDeviation)) := by
  unfold calculateDeviations
  have h := buildDevMap_neg g data []
  simp only [mapNeg, List.map_nil] at h
  rw [h]
  simp only [List.map_map]
  induction buildDevMap g [] data with
  | nil => rfl
  | cons p rest ih =>
      simp only [List.map_cons, ih]
      obtain ⟨h1, h2, h3⟩ := finalizeDeviation_neg t p.2
      simp [Function.comp, h1, h2, h3]

/-! ### C5 — heatmap cells -/

/-- Counterexample to C5 as stated: a cell with a nonzero actual sum and a
zero budget sum gets `perc = 0` from `generateHeatmapData` (the code's
`budgetMag !== 0 ? ... : 0` fallback), not the `+100` of the §4.4 deviation
formula. -/
theorem generateHeatmapData_zero_budget_cex :
    (generateHeatmapData [mkRec .REAL 50] [("Jan", 1)] [.DC]).map
      (fun row => row.cells.map (fun c => (c.2.real, c.2.budget, c.2.perc)))
      = [[(50, 0, 0)]] ∧ (0 : ℚ) ≠ 100 := by
  constructor
  · simp [generateHeatmapData, heatCell, mkRec, categoryMapName]
    try norm_num
  · norm_num

/-- C5 (amended): `generateHeatmapData` yields one row per category in the
input order, each row one cell per month in the input order, each cell
carrying `diff = |real| - |budget|` and
`perc = diff / |budget| * 100` — except that a zero-budget cell's
percentage is `0` (even when the actual sum is nonzero), unlike the §4.4
deviation formula. -/
theorem generateHeatmapData_formula (data : List ProcessedExpense)
    (months : List (String × Nat)) (cats : List CategoryType) :
    (generateHeatmapData data months cats).map (fun r => r.category) =
      cats ∧
    List.Forall (fun row =>
      row.cells.map Prod.fst = months.map Prod.fst ∧
      List.Forall (fun c =>
          c.2.diff = |c.2.real| - |c.2.budget| ∧
          c.2.perc =
            (if |c.2.budget| ≠ 0 then c.2.diff / |c.2.budget| * 100 else 0))
        row.cells) (generateHeatmapData data months cats) := by
  constructor
  · induction cats with
    | nil => rfl
    | cons c cs ih => simpa [generateHeatmapData] using ih
  · rw [List.forall_iff_forall_mem]
    intro row hrow
    obtain ⟨cat, -, rfl⟩ := List.mem_map.mp hrow
    constructor
    · induction months with
      | nil => rfl
      | cons m ms ih => simp [ih]
    · rw [List.forall_iff_forall_mem]
      intro c hc
      obtain ⟨m, -, rfl⟩ := List.mem_map.mp hc
      exact ⟨rfl, rfl⟩

/-! ### C3 — MicroView rollup fallback -/

/-- A sample MicroView row (REAL, category DC, year 2024). -/
def mkAcct (lvl : Nat) (code : String) (amount : ℚ) : ProcessedExpense :=
  { id := "m"
    dataType := .REAL
    category := .DC
    categoryName := "Despesas Comerciais"
    idCtactb := "DC AN"
    accountCode := code
    description := code
    level := lvl
    month := 1
    year := 2024
    amount := amount
    isVariable := false
    isSynthetic := false }

/-- Group items with a zero level-2 parent `4.3`, three dotted level-5
descendants summing to 300, and one *undotted* level-5 code `4.31`. -/
def gi3 : List ProcessedExpense :=
  [mkAcct 2 "4.3" 0, mkAcct 5 "4.3.01" 100, mkAcct 5 "4.3.02" 100,
   mkAcct 5 "4.3.03" 100, mkAcct 5 "4.31" 50]

/-- The same group without the undotted `4.31` code. -/
def giDot : List ProcessedExpense :=
  [mkAcct 2 "4.3" 0, mkAcct 5 "4.3.01" 100, mkAcct 5 "4.3.02" 100,
   mkAcct 5 "4.3.03" 100]

/-- The level-5 records used by the MODE 3 concrete example. -/
def pdDot : List ProcessedExpense :=
  [mkAcct 5 "4.3.01" 100, mkAcct 5 "4.3.02" 100, mkAcct 5 "4.3.03" 100]

lemma lookupKey_mem {κ β : Type} [DecidableEq κ] (k : κ) (v : β) :
    ∀ m : List (κ × β), lookupKey k m = some v → (k, v) ∈ m := by
  intro m
  induction m with
  | nil =>
      intro h
      simp [lookupKey] at h
  | cons p rest ih =>
      intro h
      unfold lookupKey at h
      split_ifs at h with hp
      · obtain rfl : p.2 = v := by injection h
        rw [← hp]
        exact List.mem_cons_self _ _
      · exact List.mem_cons_of_mem _ (ih h)

/-- Counterexample to C3 as stated: in MODE 2 of `views/MicroView.tsx` the
zero level-2 fallback sums every level-5 record whose code merely *starts
with* the parent code (`startsWith(key)`, no dot appended), so with the
undotted sibling code `4.31` present the displayed amount is 350, while the
claim's "equals the parent code or parent code + dot" sum is 300. -/
theorem microView_rollup_cex :
    (mode2Result gi3).map (fun r => r.amount) = [350] ∧
    ((gi3.filter (fun d => d.level = 5 ∧
        (d.accountCode = "4.3" ∨
          strStartsWith ("4.3" ++ ".") d.accountCode))).map
      (fun d => d.amount)).sum = 300 ∧
    (350 : ℚ) ≠ 300 := by
  refine ⟨?_, ?_, by norm_num⟩
  · simp [gi3, mkAcct, mode2Result, buildTempMap, upsertL2, mode2ChildSum,
      strStartsWith]
    try norm_num
  · simp [gi3, mkAcct, strStartsWith]
    try norm_num

/-- C3 (amended): in the MODE 3 drill-down recalculation a below-0.01
parent (level < 5) is displayed as the sum of the level-5 records of the
same year/category with code equal to the parent code or extending it with
a dot (as the claim states); in the MODE 2 synthetic-group view a
below-0.01 level-2 row is displayed as the sum of the group's level-5
records whose code merely *starts with* the parent code (dot not
required); on dotted-descendants-only data both give the claimed 300. -/
theorem microView_rollup_amended :
    (∀ (pd : List ProcessedExpense) (y : Int) (meta : ProcessedExpense)
        (a : ℚ), meta.level < 5 → |a| < 1/100 →
        (recalcParent pd y meta a).amount = mode3ChildrenSum pd y meta) ∧
    (∀ (gi : List ProcessedExpense) (k : String) (v : L2Entry),
        lookupKey k (buildTempMap [] (gi.filter (fun d => d.level = 2))) =
          some v →
        |v.l2Amount| < 1/100 →
        ({ v.meta with amount := mode2ChildSum gi k } : ProcessedExpense) ∈
          mode2Result gi) ∧
    (mode2Result giDot).map (fun r => r.amount) = [300] ∧
    (recalcParent pdDot 2024 (mkAcct 2 "4.3" 0) 0).amount = 300 := by
  refine ⟨?_, ?_, ?_, ?_⟩
  · intro pd y meta a h1 h2
    unfold recalcParent
    rw [if_pos h1, if_pos (Or.inr h2)]
  · intro gi k v hl hv
    have hm := lookupKey_mem k v _ hl
    unfold mode2Result
    refine List.mem_map.mpr ⟨(k, v), hm, ?_⟩
    rw [if_pos hv]
  · simp [giDot, mkAcct, mode2Result, buildTempMap, upsertL2, mode2ChildSum,
      strStartsWith]
    try norm_num
  · simp [pdDot, mkAcct, recalcParent, mode3ChildrenSum, strStartsWith]
    try norm_num

/-- Witness for C3 (amended), at concrete inputs for both universally
quantified parts. -/
theorem microView_rollup_amended_witness :
    ((recalcParent [] 0 (mkAcct 2 "4.3" 0) 0).amount =
      mode3ChildrenSum [] 0 (mkAcct 2 "4.3" 0)) ∧
    (({ (mkAcct 2 "4.3" 0) with amount := mode2ChildSum giDot "4.3" } :
        ProcessedExpense) ∈ mode2Result giDot) :=
  ⟨microView_rollup_amended.1 [] 0 (mkAcct 2 "4.3" 0) 0 (by norm_num [mkAcct])
      (by norm_num),
    microView_rollup_amended.2.1 giDot "4.3"
      ⟨mkAcct 2 "4.3" 0, 0⟩
      (by simp [giDot, mkAcct, buildTempMap, upsertL2, lookupKey])
      (by norm_num)⟩

/-! ### C4 — Pareto list -/

/-- A sample deviation row with a given display deviation. -/
def mkDev (nm : String) (q : ℚ) : DeviationData :=
  { id := nm, description := nm, category := .DC, accountCode := none
    level := 2, budget := 0, real := 0, absDeviation := q
    percDeviation := 0, status := .HEALTHY }

/-- Eleven identical overrun rows (display deviation `-1` each). -/
def devs11 : List DeviationData := List.replicate 11 (mkDev "a" (-1))

/-- Two overrun rows, for the C4 witness. -/
def devsW : List DeviationData := [mkDev "a" (-3), mkDev "b" (-1)]

lemma paretoItems_map_value (total : ℚ) :
    ∀ (acc : ℚ) (l : List DeviationData),
      (paretoItems total acc l).map (fun p => p.value) =
        l.map (fun d => |d.absDeviation|)
  | _, [] => rfl
  | acc, d :: rest => by
      simp only [paretoItems, List.map_cons]
      rw [paretoItems_map_value]

lemma paretoItems_length (total acc : ℚ) (l : List DeviationData) :
    (paretoItems total acc l).length = l.length := by
  have h := congrArg List.length (paretoItems_map_value total acc l)
  simpa using h

lemma paretoItems_cumulative_last (total : ℚ) :
    ∀ (l : List DeviationData) (acc : ℚ), l ≠ [] →
      ((paretoItems total acc l).map
          (fun p => p.cumulativePercent)).getLast? =
        some (if total > 0 then
          (acc + (l.map (fun d => |d.absDeviation|)).sum) / total * 100
        else 0)
  | [], _, h => absurd rfl h
  | [d], acc, _ => by
      simp [paretoItems]
  | d :: d' :: rest, acc, _ => by
      have ih := paretoItems_cumulative_last total (d' :: rest)
        (acc + |d.absDeviation|) (by simp)
      simp only [paretoItems, List.map_cons, List.getLast?_cons_cons] at ih ⊢
      rw [ih]
      congr 1
      simp only [List.sum_cons]
      split_ifs with h
      · ring
      · rfl

/-- Counterexample to C4 as stated: with eleven equal overruns the
`slice(0, 10)` truncation (applied *after* the cumulative percentages are
computed) makes the last returned item's `cumulativePercent` equal
`1000/11 ≈ 90.9`, not 100. -/
theorem generatePareto_cumulative_cex :
    (devs11.filter (fun d => d.absDeviation < 0)).length = 11 ∧
    ((generatePareto devs11).map (fun p => p.cumulativePercent)).getLast? =
      some (1000/11) ∧
    (1000/11 : ℚ) ≠ 100 := by
  refine ⟨?_, ?_, by norm_num⟩
  · simp [devs11, mkDev, List.replicate]
    try norm_num
  · simp [devs11, mkDev, List.replicate, generatePareto, paretoSorted,
      paretoTotal, paretoItems, byAbsDeviation, List.insertionSort,
      List.orderedInsert]
    try norm_num

/-- C4 (amended): `generatePareto` returns at most 10 items, sorted with
non-increasing `value` (worst overrun first), the empty list when there are
no overruns; when overruns exist the *untruncated* cumulative sequence ends
at exactly 100, and consequently so does the returned one whenever there
are at most 10 overruns (with more than 10 the truncation cuts the sequence
short, as the counterexample shows). -/
theorem generatePareto_amended (devs : List DeviationData) :
    (generatePareto devs).length ≤ 10 ∧
    List.Pairwise (· ≥ ·) ((generatePareto devs).map (fun p => p.value)) ∧
    ((∀ d ∈ devs, ¬ d.absDeviation < 0) → generatePareto devs = []) ∧
    ((∃ d ∈ devs, d.absDeviation < 0) →
      ((paretoItems (paretoTotal (paretoSorted devs)) 0
          (paretoSorted devs)).map
          (fun p => p.cumulativePercent)).getLast? = some 100 ∧
      ((devs.filter (fun d => d.absDeviation < 0)).length ≤ 10 →
        ((generatePareto devs).map
            (fun p => p.cumulativePercent)).getLast? = some 100)) := by
  have hneg : ∀ d ∈ paretoSorted devs, d.absDeviation < 0 := by
    intro d hd
    have hf := (List.mem_insertionSort byAbsDeviation).mp hd
    have := (List.mem_filter.mp hf).2
    simpa using this
  have hsorted : List.Pairwise byAbsDeviation (paretoSorted devs) :=
    List.sorted_insertionSort byAbsDeviation _
  refine ⟨?_, ?_, ?_, ?_⟩
  · simp [generatePareto]
  · have hpair : List.Pairwise
        (fun a b : DeviationData => |a.absDeviation| ≥ |b.absDeviation|)
        (paretoSorted devs) := by
      refine hsorted.imp_of_mem ?_
      intro a b ha hb hr
      rw [abs_of_neg (hneg a ha), abs_of_neg (hneg b hb)]
      exact neg_le_neg hr
    have hmap : List.Pairwise (· ≥ ·)
        ((paretoSorted devs).map (fun d => |d.absDeviation|)) :=
      (List.pairwise_map).mpr hpair
    rw [generatePareto, List.map_take, paretoItems_map_value]
    exact hmap.sublist (List.take_sublist 10 _)
  · intro h
    have hfil : devs.filter (fun d => d.absDeviation < 0) = [] := by
      rw [List.filter_eq_nil_iff]
      intro d hd
      simpa using h d hd
    simp [generatePareto, paretoSorted, paretoItems, hfil]
  · rintro ⟨d, hd, hdneg⟩
    have hmem : d ∈ paretoSorted devs := by
      unfold paretoSorted
      rw [List.mem_insertionSort, List.mem_filter]
      exact ⟨hd, by simpa using hdneg⟩
    have hne : paretoSorted devs ≠ [] := List.ne_nil_of_mem hmem
    have htotal : 0 < paretoTotal (paretoSorted devs) := by
      refine List.sum_pos _ ?_ ?_
      · intro q hq
        obtain ⟨e, he, rfl⟩ := List.mem_map.mp hq
        exact abs_pos.mpr (ne_of_lt (hneg e he))
      · simp only [ne_eq, List.map_eq_nil_iff]
        exact hne
    have hlast := paretoItems_cumulative_last
      (paretoTotal (paretoSorted devs)) (paretoSorted devs) 0 hne
    rw [if_pos htotal, zero_add] at hlast
    have hsum : ((paretoSorted devs).map
        (fun d => |d.absDeviation|)).sum = paretoTotal (paretoSorted devs) :=
      rfl
    rw [hsum, div_self (ne_of_gt htotal), one_mul] at hlast
    refine ⟨hlast, ?_⟩
    intro hlen
    have hlen' : (paretoItems (paretoTotal (paretoSorted devs)) 0
        (paretoSorted devs)).length ≤ 10 := by
      rw [paretoItems_length, paretoSorted, List.length_insertionSort]
      simpa using hlen
    rw [generatePareto, List.take_of_length_le hlen']
    exact hlast

/-- Witness for C4 (amended): both cumulative-percent conclusions at a
two-overrun input. -/
theorem generatePareto_amended_witness :
    ((paretoItems (paretoTotal (paretoSorted devsW)) 0
        (paretoSorted devsW)).map
        (fun p => p.cumulativePercent)).getLast? = some 100 ∧
    ((generatePareto devsW).map
        (fun p => p.cumulativePercent)).getLast? = some 100 := by
  have h := (generatePareto_amended devsW).2.2.2
    ⟨mkDev "a" (-3), by simp [devsW], by norm_num [mkDev]⟩
  refine ⟨h.1, h.2 ?_⟩
  simp [devsW, mkDev]
  try norm_num

/-! ### C8 — forecast degenerate input, C9 — scenario non-negativity -/

/-- C8: when the input has no `REAL` non-`ROL` record (in particular for
the empty dataset and an all-revenue dataset), `generateForecast` returns
the empty result structure: empty chart, empty projections, zero totals,
no drivers, no seasonality insights.  (The embedding is a total function;
the early return means no later step — regression, division, array
indexing — is ever reached on this path.) -/
theorem generateForecast_degenerate (data : List ProcessedExpense) (n : Nat)
    (h : data.filter (fun d => d.dataType = .REAL ∧ d.category ≠ .ROL) = []) :
    generateForecast data n = emptyForecastResult ∧
    (generateForecast data n).chartData = [] ∧
    (generateForecast data n).monthlyProjections = [] ∧
    (generateForecast data n).nextYearTotal =
      { base := 0, optimistic := 0, pessimistic := 0 } ∧
    (generateForecast data n).drivers = [] ∧
    (generateForecast data n).seasonalityInsights = [] := by
  have hmain : generateForecast data n = emptyForecastResult := by
    simp only [generateForecast]
    rw [h]
    simp
  rw [hmain]
  exact ⟨rfl, rfl, rfl, rfl, rfl, rfl⟩

/-- Witness for C8: the empty dataset and a one-record all-revenue
dataset. -/
theorem generateForecast_degenerate_witness :
    generateForecast [] 12 = emptyForecastResult ∧
    generateForecast [{ mkRec .REAL 5 with category := .ROL }] 12 =
      emptyForecastResult :=
  ⟨(generateForecast_degenerate [] 12 rfl).1,
    (generateForecast_degenerate [{ mkRec .REAL 5 with category := .ROL }]
      12 (by simp [mkRec])).1⟩

/-- Under the exact-arithmetic convention of this embedding (division by
zero yields 0, there is no `NaN`), every projected chart point of
`generateForecast` has all three scenario values non-negative: the
`Math.max(0, ...)` floor works whenever the arithmetic stays in `ℚ`.  The
JavaScript program leaves `ℚ`-representable behaviour exactly on the
single-month dataset family, where the regression divides zero by zero and
the resulting `NaN` defeats the floor — see the divergence theorem below. -/
theorem generateForecast_scenarios_nonneg (data : List ProcessedExpense)
    (n : Nat) :
    List.Forall (fun p =>
        0 ≤ p.scenarioBase ∧ 0 ≤ p.scenarioOptimistic ∧
        0 ≤ p.scenarioPessimistic)
      ((generateForecast data n).chartData.filter
        (fun p => p.isProjected)) := by
  rw [List.forall_iff_forall_mem]
  intro p hp
  obtain ⟨hmem, hproj⟩ := List.mem_filter.mp hp
  by_cases h : data.filter
      (fun d => d.dataType = .REAL ∧ d.category ≠ .ROL) = []
  · simp only [generateForecast] at hmem
    rw [h] at hmem
    simp [emptyForecastResult] at hmem
  · simp only [generateForecast, if_neg h] at hmem
    rcases List.mem_append.mp hmem with hh | hh
    · obtain ⟨pt, -, rfl⟩ := List.mem_map.mp hh
      simp at hproj
    · obtain ⟨i, -, rfl⟩ := List.mem_map.mp hh
      exact ⟨le_max_left _ _, le_max_left _ _, le_max_left _ _⟩

/-- C9: code-bug demonstration at the failing input — a dataset whose
`REAL` non-`ROL` records all lie in a single `(year, month)` (here one
record: REAL, DC, January 2024, amount 100).  Evaluating the code there:
the degenerate-input filter is nonempty (the early return is *not* taken,
so the regression is reached); the year range is `2024..2024` and the time
series reaching `getLinearRegression` has exactly one point, value 100;
and both the numerator and the divisor of the slope are 0.  JavaScript
therefore computes `slope = 0 / 0 = NaN`, which propagates (the
`trendValue !== 0` guard passes for `NaN`, and `Math.max(0, NaN) = NaN`)
into every projected `scenarioBase`/`Optimistic`/`Pessimistic` — `NaN`,
not `≥ 0` as the claim (and the code's own `Math.max(0, ·)` flooring
intent) requires. -/
theorem generateForecast_single_month_divergence :
    [mkRec .REAL 100].filter
      (fun d => d.dataType = .REAL ∧ d.category ≠ .ROL) =
      [mkRec .REAL 100] ∧
    ((([mkRec .REAL 100].map (fun d => d.year)).dedup).insertionSort
      (· ≤ ·)) = [2024] ∧
    (mkTimeSeries
        ([mkRec .REAL 100].foldl
          (fun m d => addToMap (d.year, d.month) d.amount m) [])
        2024 2024).map (fun p => p.val) = [100] ∧
    regressionNumerator [(100 : ℚ)] = 0 ∧
    regressionDenominator [(100 : ℚ)] = 0 := by
  refine ⟨by decide, by decide, by decide, ?_, ?_⟩
  · simp [regressionNumerator, List.range_succ]
    try norm_num
  · simp [regressionDenominator, List.range_succ]
    try norm_num

end Dashboard
